import Mathlib

/-!
Shallow embedding of the Nexarch1 land-analysis application:
the data model and service layer of src/services/gemini.service.ts,
the application state controller of src/app.component.ts, and the
building-scene construction of src/three-d-view/three-d-view.component.ts.
Numbers that the TypeScript source holds as JS numbers are modelled as
rationals (ℚ) except where the source treats them as integer counts.
-/

namespace Nexarch

/-- Room type enumeration of the Room interface (gemini.service.ts). -/
inductive RoomType where
  | living
  | kitchen
  | bedroom
  | bathroom
  | staircase
  | balcony
  | void
  | hallway
  deriving DecidableEq, Repr

/-- Percentage bounding box of a room: the layout field of Room
(x, y, width, height as percentages of the plot footprint). -/
structure Layout where
  x : ℚ
  y : ℚ
  width : ℚ
  height : ℚ
  deriving DecidableEq, Repr

/-- Room interface of gemini.service.ts. -/
structure Room where
  name : String
  type : RoomType
  area : ℚ
  layout : Layout
  deriving DecidableEq, Repr

/-- FloorPlan interface of gemini.service.ts: a level and its rooms. -/
structure FloorPlan where
  level : ℤ
  rooms : List Room
  deriving DecidableEq, Repr

/-- BuildingSummary interface of gemini.service.ts. totalFloors drives the
for loop of createBuildingScene and is modelled as a natural number. -/
structure BuildingSummary where
  summary : String
  totalFloors : ℕ
  unitsPerFloor : ℕ
  deriving DecidableEq, Repr

/-- AnalysisResult interface of gemini.service.ts. -/
structure AnalysisResult where
  buildingSummary : BuildingSummary
  floorPlans : List FloorPlan
  deriving DecidableEq, Repr

/-- Shape of the model reply after JSON.parse but before the basic
validation of analyzeLand: either required field may be absent. -/
structure ParsedResponse where
  buildingSummary : Option BuildingSummary
  floorPlans : Option (List FloorPlan)
  deriving DecidableEq, Repr

/-- Outcome of the model request as the body of analyzeLand observes it:
the network call rejects, JSON.parse throws, or parsing succeeds. -/
inductive ModelReply where
  | networkError
  | parseFailure
  | parsed (p : ParsedResponse)
  deriving DecidableEq, Repr

/-- Message of the Error thrown by the basic validation inside the try
block of analyzeLand. -/
def invalidDataMessage : String :=
  "Invalid data format from API: Missing essential fields."

/-- Message of the Error re-thrown by the catch block of analyzeLand. -/
def genericFailureMessage : String :=
  "Failed to get a valid response from the AI model."

/-- Try block of GeminiService.analyzeLand: await the model call, parse the
reply, then throw unless buildingSummary and a non-empty floorPlans array
are present. The error strings of the first two branches stand for the
exceptions the transport and JSON.parse raise. -/
def analyzeLandTry (reply : ModelReply) : Except String AnalysisResult :=
  match reply with
  | .networkError => .error "GoogleGenAI: request failed"
  | .parseFailure => .error "SyntaxError: JSON.parse"
  | .parsed p =>
    match p.buildingSummary, p.floorPlans with
    | some bs, some fps =>
        if fps.length = 0 then .error invalidDataMessage
        else .ok ⟨bs, fps⟩
    | _, _ => .error invalidDataMessage

/-- Interpolated lines of the prompt template of analyzeLand that carry the
numeric arguments (the remaining lines of the template are constant text). -/
structure SentPrompt where
  widthLine : String
  depthLine : String
  westNeighborLine : String
  eastNeighborLine : String
  deriving DecidableEq, Repr

/-- Prompt lines built by analyzeLand from its parameters, in the
parameter order of its signature (width, depth, neighborWestFloors,
neighborEastFloors). -/
def analyzeLandPrompt (width depth : ℚ) (neighborWestFloors neighborEastFloors : ℤ) :
    SentPrompt :=
  { widthLine := "- Width (along street): " ++ toString width ++ " meters"
    depthLine := "- Depth: " ++ toString depth ++ " meters"
    westNeighborLine := "- West Neighbor: " ++ toString neighborWestFloors ++
      " floors. This affects lighting and privacy on the west side."
    eastNeighborLine := "- East Neighbor: " ++ toString neighborEastFloors ++
      " floors. This affects lighting and privacy on the east side." }

/-- GeminiService.analyzeLand: the prompt it sends and the promise outcome.
The catch block wraps the whole try block, so every failure (network,
parse, validation) is re-thrown as the one generic Error. -/
def analyzeLand (width depth : ℚ) (neighborWestFloors neighborEastFloors : ℤ)
    (reply : ModelReply) : SentPrompt × Except String AnalysisResult :=
  (analyzeLandPrompt width depth neighborWestFloors neighborEastFloors,
   match analyzeLandTry reply with
   | .ok r => .ok r
   | .error _ => .error genericFailureMessage)

/-- Step signal of AppComponent: the three-state flow. -/
inductive Step where
  | input
  | loading
  | result
  deriving DecidableEq, Repr

/-- InputType signal of AppComponent: numeric fields or freehand polygon. -/
inductive InputType where
  | numeric
  | draw
  deriving DecidableEq, Repr

/-- ViewMode signal of AppComponent: the strings 2d, 3d, 3d-plus and
building-3d. -/
inductive ViewMode where
  | twoD
  | threeD
  | threeDPlus
  | building3d
  deriving DecidableEq, Repr

/-- Normalized (0-1) 2D point of the drawing canvas. -/
structure Point where
  x : ℚ
  y : ℚ
  deriving DecidableEq, Repr

/-- Signals of AppComponent that analyzePlot reads and writes. -/
structure AppState where
  step : Step
  inputType : InputType
  viewMode : ViewMode
  landWidth : ℚ
  landDepth : ℚ
  neighborEastFloors : ℤ
  neighborWestFloors : ℤ
  polygonPoints : List Point
  analysisResult : Option AnalysisResult
  errorMessage : Option String
  selectedFloor : ℕ
  deriving DecidableEq, Repr

/-- AppComponent.undoPoint: points.slice(0, -1), the list without its last
element. -/
def undoPoint (points : List Point) : List Point :=
  points.take (points.length - 1)

/-- AppComponent.resetDrawing: the point list is set to []. -/
def resetDrawing : List Point := []

/-- AppComponent.isDrawingValid: polygonPoints().length >= 3. -/
def isDrawingValid (points : List Point) : Bool :=
  decide (3 ≤ points.length)

/-- MAX_GRID_SIZE_METERS constant of AppComponent: the canvas covers a
50x50 m area. -/
def MAX_GRID_SIZE_METERS : ℚ := 50

/-- Math.max over the x coordinates of a point list (the list is non-empty
at every call site, guarded by isDrawingValid). -/
def maxX : List Point → ℚ
  | [] => 0
  | p :: ps => ps.foldl (fun m q => max m q.x) p.x

/-- Math.min over the x coordinates of a point list. -/
def minX : List Point → ℚ
  | [] => 0
  | p :: ps => ps.foldl (fun m q => min m q.x) p.x

/-- Math.max over the y coordinates of a point list. -/
def maxY : List Point → ℚ
  | [] => 0
  | p :: ps => ps.foldl (fun m q => max m q.y) p.y

/-- Math.min over the y coordinates of a point list. -/
def minY : List Point → ℚ
  | [] => 0
  | p :: ps => ps.foldl (fun m q => min m q.y) p.y

/-- Bounding-box width of the polygon converted to meters:
(maxX - minX) * MAX_GRID_SIZE_METERS. -/
def bboxWidthMeters (points : List Point) : ℚ :=
  (maxX points - minX points) * MAX_GRID_SIZE_METERS

/-- Bounding-box depth of the polygon converted to meters:
(maxY - minY) * MAX_GRID_SIZE_METERS. -/
def bboxDepthMeters (points : List Point) : ℚ :=
  (maxY points - minY points) * MAX_GRID_SIZE_METERS

/-- Number.prototype.toFixed(1) (composed with parseFloat) on an exact
rational: the nearest multiple of one tenth, ties toward the larger
value. -/
def toFixed1 (q : ℚ) : ℚ :=
  (⌊q * 10 + 1 / 2⌋ : ℚ) / 10

/-- Final width analyzePlot derives from a drawn polygon:
Math.max(5, parseFloat(((maxX - minX) * 50).toFixed(1))). -/
def finalWidth (points : List Point) : ℚ :=
  max 5 (toFixed1 (bboxWidthMeters points))

/-- Final depth analyzePlot derives from a drawn polygon:
Math.max(5, parseFloat(((maxY - minY) * 50).toFixed(1))). -/
def finalDepth (points : List Point) : ℚ :=
  max 5 (toFixed1 (bboxDepthMeters points))

/-- Scaling every point of a polygon by a factor k. -/
def scalePoints (k : ℚ) (points : List Point) : List Point :=
  points.map (fun p => ⟨k * p.x, k * p.y⟩)

/-- Inline message set when a drawn polygon has fewer than 3 points. -/
def drawingErrorMessage : String :=
  "لطفاً حداقل ۳ نقطه برای ترسیم زمین مشخص کنید."

/-- Inline message set when a numeric dimension is non-positive. -/
def dimensionErrorMessage : String :=
  "لطفاً ابعاد معتبر برای زمین وارد کنید."

/-- Message set by the catch block of analyzePlot when the service call
rejects. -/
def serviceErrorMessage : String :=
  "خطا در ارتباط با سرویس هوش مصنوعی."

/-- Guard section of analyzePlot: the final dimensions when the input is
valid, or the inline error message of the early return. -/
def computeDimensions (s : AppState) : Except String (ℚ × ℚ) :=
  match s.inputType with
  | .draw =>
      if isDrawingValid s.polygonPoints then
        .ok (finalWidth s.polygonPoints, finalDepth s.polygonPoints)
      else
        .error drawingErrorMessage
  | .numeric =>
      if s.landWidth ≤ 0 ∨ s.landDepth ≤ 0 then
        .error dimensionErrorMessage
      else
        .ok (s.landWidth, s.landDepth)

/-- Result of one run of analyzePlot: the final signal values and the
prompt sent to the service, none when the guards returned early. -/
structure AnalyzeOutcome where
  state : AppState
  requestSent : Option SentPrompt
  deriving DecidableEq, Repr

/-- AppComponent.analyzePlot, the model reply standing for the awaited
service call: validate the input (early return on failure), store the
final dimensions, enter loading with the prior result and error cleared,
call analyzeLand with the east signal in the neighborWestFloors parameter
slot and the west signal in the neighborEastFloors slot, then either store
the result or set the service error and return to input. -/
def analyzePlot (reply : ModelReply) (s : AppState) : AnalyzeOutcome :=
  match computeDimensions s with
  | .error msg => ⟨{ s with errorMessage := some msg }, none⟩
  | .ok (finalW, finalD) =>
      let s1 : AppState :=
        { s with landWidth := finalW, landDepth := finalD,
                 step := Step.loading, analysisResult := none,
                 errorMessage := none }
      let call := analyzeLand finalW finalD s.neighborEastFloors s.neighborWestFloors reply
      match call.2 with
      | .ok result =>
          ⟨{ s1 with analysisResult := some result, selectedFloor := 0,
                     step := Step.result, viewMode := ViewMode.building3d },
           some call.1⟩
      | .error _ =>
          ⟨{ s1 with errorMessage := some serviceErrorMessage,
                     step := Step.input },
           some call.1⟩

/-- AppComponent.currentFloorPlan: floorPlans[selectedFloor] ||
floorPlans[0], null when there is no result. -/
def currentFloorPlan (analysisResult : Option AnalysisResult)
    (selectedFloor : ℕ) : Option FloorPlan :=
  match analysisResult with
  | none => none
  | some result =>
      match result.floorPlans[selectedFloor]? with
      | some plan => some plan
      | none => result.floorPlans[0]?

/-- FLOOR_HEIGHT constant of ThreeDViewComponent (meters). -/
def FLOOR_HEIGHT : ℚ := 3

/-- Slab thickness used by renderSlab. -/
def slabThickness : ℚ := 2 / 10

/-- Geometry of one slab piece added by renderSlab for a non-void room:
BoxGeometry(w, slabThickness, d) positioned at the room's footprint. -/
structure SlabPiece where
  width : ℚ
  depth : ℚ
  posX : ℚ
  posY : ℚ
  posZ : ℚ
  deriving DecidableEq, Repr

/-- Slab piece renderSlab creates for one room. -/
def slabPieceOfRoom (elevation landW landD : ℚ) (room : Room) : SlabPiece :=
  let w := room.layout.width / 100 * landW
  let d := room.layout.height / 100 * landD
  { width := w
    depth := d
    posX := room.layout.x / 100 * landW + w / 2 - landW / 2
    posY := elevation - slabThickness / 2
    posZ := room.layout.y / 100 * landD + d / 2 - landD / 2 }

/-- ThreeDViewComponent.renderSlab: one slab piece per room of the plan,
skipping rooms of type void. -/
def renderSlab (elevation landW landD : ℚ) (plan : FloorPlan) : List SlabPiece :=
  plan.rooms.filterMap (fun room =>
    if room.type = RoomType.void then none
    else some (slabPieceOfRoom elevation landW landD room))

/-- Geometry of one room volume added by renderFloor. -/
structure RoomBox where
  width : ℚ
  height : ℚ
  depth : ℚ
  posX : ℚ
  posY : ℚ
  posZ : ℚ
  wireframe : Bool
  deriving DecidableEq, Repr

/-- ThreeDViewComponent.renderFloor: one box per room at the elevation,
with void rooms skipped entirely in building view and rendered as
wireframes in single view. -/
def renderFloor (plan : FloorPlan) (elevation landW landD : ℚ)
    (isBuildingView : Bool) : List RoomBox :=
  let roomHeight := if isBuildingView then FLOOR_HEIGHT - 2 / 10 else 5 / 2
  plan.rooms.filterMap (fun room =>
    if room.type = RoomType.void ∧ isBuildingView = true then none
    else
      let roomWidth := room.layout.width / 100 * landW
      let roomDepth := room.layout.height / 100 * landD
      some { width := roomWidth
             height := roomHeight
             depth := roomDepth
             posX := room.layout.x / 100 * landW + roomWidth / 2 - landW / 2
             posY := elevation + roomHeight / 2
             posZ := room.layout.y / 100 * landD + roomDepth / 2 - landD / 2
             wireframe := decide (room.type = RoomType.void) })

/-- Geometry of one neighbor massing box added by renderNeighbors. -/
structure NeighborBox where
  width : ℚ
  height : ℚ
  depth : ℚ
  posX : ℚ
  posY : ℚ
  posZ : ℚ
  deriving DecidableEq, Repr

/-- ThreeDViewComponent.renderNeighbors: a massing box per neighbor with
a positive floor count, 10 wide, floors * FLOOR_HEIGHT tall, west at -X
and east at +X. -/
def renderNeighbors (landW landD : ℚ) (neighborWestFloors neighborEastFloors : ℤ) :
    List NeighborBox :=
  (if 0 < neighborWestFloors then
     [{ width := 10
        height := neighborWestFloors * FLOOR_HEIGHT
        depth := landD
        posX := -(landW / 2 + 10 / 2 + 5 / 10)
        posY := neighborWestFloors * FLOOR_HEIGHT / 2
        posZ := 0 }]
   else [])
  ++
  (if 0 < neighborEastFloors then
     [{ width := 10
        height := neighborEastFloors * FLOOR_HEIGHT
        depth := landD
        posX := landW / 2 + 10 / 2 + 5 / 10
        posY := neighborEastFloors * FLOOR_HEIGHT / 2
        posZ := 0 }]
   else [])

/-- Typical floor plan selection of createBuildingScene:
floorPlans.length > 1 ? floorPlans.find(p => p.level > 0) || floorPlans[0]
: floorPlans[0]. -/
def typicalPlan (floorPlans : List FloorPlan) : Option FloorPlan :=
  if 1 < floorPlans.length then
    match floorPlans.find? (fun p => decide (0 < p.level)) with
    | some p => some p
    | none => floorPlans[0]?
  else floorPlans[0]?

/-- Ground floor plan selection of createBuildingScene:
floorPlans.find(p => p.level === 0) || floorPlans[0]. -/
def groundPlan (floorPlans : List FloorPlan) : Option FloorPlan :=
  match floorPlans.find? (fun p => decide (p.level = 0)) with
  | some p => some p
  | none => floorPlans[0]?

/-- One object group added to the scene by createBuildingScene. -/
inductive BuildingOp where
  | floorOp (elevation : ℚ) (plan : FloorPlan) (boxes : List RoomBox)
  | slabOp (elevation : ℚ) (pieces : List SlabPiece)
  | neighborOp (box : NeighborBox)
  deriving DecidableEq, Repr

/-- Whether a building op is a rendered floor level. -/
def BuildingOp.isFloorOp : BuildingOp → Bool
  | .floorOp _ _ _ => true
  | _ => false

/-- Whether a building op is a slab (between floors or roof). -/
def BuildingOp.isSlabOp : BuildingOp → Bool
  | .slabOp _ _ => true
  | _ => false

/-- ThreeDViewComponent.createBuildingScene: for i in 0..totalFloors-1
render the ground plan (i = 0) or the typical plan at i * FLOOR_HEIGHT,
with a slab under every floor above ground, then the roof slab at
totalFloors * FLOOR_HEIGHT from the typical plan, then the neighbor
massing boxes. When floorPlans is empty the JS code dereferences an
undefined plan and throws; that crash is modelled as none. -/
def createBuildingScene (landW landD : ℚ)
    (neighborWestFloors neighborEastFloors : ℤ)
    (result : AnalysisResult) : Option (List BuildingOp) :=
  let totalFloors := result.buildingSummary.totalFloors
  match typicalPlan result.floorPlans, groundPlan result.floorPlans with
  | some tp, some gp =>
      some (((List.range totalFloors).flatMap (fun i =>
          let elevation : ℚ := (i : ℚ) * FLOOR_HEIGHT
          let planToRender := if i = 0 then gp else tp
          BuildingOp.floorOp elevation planToRender
              (renderFloor planToRender elevation landW landD true)
            :: (if 0 < i then
                  [BuildingOp.slabOp elevation
                    (renderSlab elevation landW landD planToRender)]
                else [])))
        ++ [BuildingOp.slabOp ((totalFloors : ℚ) * FLOOR_HEIGHT)
              (renderSlab ((totalFloors : ℚ) * FLOOR_HEIGHT) landW landD tp)]
        ++ (renderNeighbors landW landD neighborWestFloors neighborEastFloors).map
              BuildingOp.neighborOp)
  | _, _ => none

/-! Theorems. -/

/-- C1: every model reply whose parsed object lacks buildingSummary, lacks
floorPlans or has an empty floorPlans array makes analyzeLand fail with an
error instead of returning it, and every AnalysisResult analyzeLand does
return has a non-empty floorPlans list (its buildingSummary being a total
field of the returned structure). -/
theorem analyzeLand_returns_only_validated
    (width depth : ℚ) (nw ne : ℤ) (reply : ModelReply) :
    (∀ p : ParsedResponse, reply = ModelReply.parsed p →
      (p.buildingSummary = none ∨ p.floorPlans = none ∨ p.floorPlans = some [] →
        (analyzeLand width depth nw ne reply).2 =
          Except.error genericFailureMessage)) ∧
    (∀ r : AnalysisResult,
      (analyzeLand width depth nw ne reply).2 = Except.ok r →
      r.floorPlans ≠ []) := by
  constructor
  · rintro ⟨bs, fps⟩ rfl h
    rcases h with h | h | h
    · simp only [ParsedResponse.buildingSummary] at h
      subst h
      rcases fps with _ | ⟨l⟩ <;> rfl
    · simp only [ParsedResponse.floorPlans] at h
      subst h
      rcases bs with _ | ⟨b⟩ <;> rfl
    · simp only [ParsedResponse.floorPlans] at h
      subst h
      rcases bs with _ | ⟨b⟩ <;> rfl
  · intro r h
    have hTryOk : ∀ (rep : ModelReply) (v : AnalysisResult),
        analyzeLandTry rep = Except.ok v → v.floorPlans ≠ [] := by
      intro rep v hv
      rcases rep with _ | _ | ⟨bs, fps⟩
      · exact absurd hv (by simp [analyzeLandTry])
      · exact absurd hv (by simp [analyzeLandTry])
      · rcases bs with _ | b
        · exact absurd hv (by simp [analyzeLandTry])
        · rcases fps with _ | fps
          · exact absurd hv (by simp [analyzeLandTry])
          · simp only [analyzeLandTry] at hv
            split at hv
            · exact absurd hv (by simp)
            · rename_i hlen
              simp only [Except.ok.injEq] at hv
              subst hv
              simpa using fun hnil => hlen (by simp [hnil])
    unfold analyzeLand at h
    rcases hTry : analyzeLandTry reply with msg | v
    · rw [hTry] at h
      simp at h
    · rw [hTry] at h
      simp at h
      subst h
      exact hTryOk reply v hTry

/-- C2 counterexample: at a concrete call, the outcome of a JSON parse
failure equals the outcome of a network failure, so the caller cannot
distinguish the two conditions. -/
theorem analyzeLand_parse_network_same_error :
    (analyzeLand 10 20 2 2 ModelReply.parseFailure).2 =
      (analyzeLand 10 20 2 2 ModelReply.networkError).2 := rfl

/-- C2 amended: the catch block of analyzeLand wraps the network call, the
parse and the validation alike, so any two failing calls surface the same
generic error and the caller cannot tell a parse or validation failure
apart from a network failure. -/
theorem analyzeLand_failures_indistinguishable
    (width depth : ℚ) (nw ne : ℤ) (replyA replyB : ModelReply)
    (eA eB : String)
    (hA : (analyzeLand width depth nw ne replyA).2 = Except.error eA)
    (hB : (analyzeLand width depth nw ne replyB).2 = Except.error eB) :
    eA = eB ∧ eA = genericFailureMessage := by
  have gen : ∀ (reply : ModelReply) (e : String),
      (analyzeLand width depth nw ne reply).2 = Except.error e →
      e = genericFailureMessage := by
    intro reply e h
    unfold analyzeLand at h
    rcases hTry : analyzeLandTry reply with msg | v
    · rw [hTry] at h
      simp at h
      exact h.symm
    · rw [hTry] at h
      simp at h
  have h1 := gen replyA eA hA
  have h2 := gen replyB eB hB
  exact ⟨h1.trans h2.symm, h1⟩

/-- C2 amended, witness: a parse failure and a network failure at a
concrete call both carry the one generic failure message. -/
theorem analyzeLand_failures_indistinguishable_witness :
    genericFailureMessage = genericFailureMessage ∧
      genericFailureMessage = genericFailureMessage :=
  analyzeLand_failures_indistinguishable 10 20 2 2
    ModelReply.parseFailure ModelReply.networkError
    genericFailureMessage genericFailureMessage rfl rfl

/-- C7: with a result present and its floorPlans non-empty,
currentFloorPlan yields a plan of the result: the plan at selectedFloor
when the index is in range, and the plan at index 0 whenever the stored
index is out of range. -/
theorem currentFloorPlan_resolves (r : AnalysisResult) (i : ℕ)
    (hne : r.floorPlans ≠ []) :
    (∃ plan, currentFloorPlan (some r) i = some plan ∧ plan ∈ r.floorPlans) ∧
    (i < r.floorPlans.length → currentFloorPlan (some r) i = r.floorPlans[i]?) ∧
    (r.floorPlans.length ≤ i → currentFloorPlan (some r) i = r.floorPlans[0]?) := by
  have hpos : 0 < r.floorPlans.length := List.length_pos.mpr hne
  by_cases h : i < r.floorPlans.length
  · refine ⟨⟨r.floorPlans[i], ?_, List.getElem_mem h⟩, fun _ => ?_, fun hle => ?_⟩
    · simp [currentFloorPlan, List.getElem?_eq_getElem h]
    · simp [currentFloorPlan, List.getElem?_eq_getElem h]
    · omega
  · have hnone : r.floorPlans[i]? = none := by
      simp [List.getElem?_eq_none (by omega : r.floorPlans.length ≤ i)]
    refine ⟨⟨r.floorPlans[0], ?_, List.getElem_mem hpos⟩, fun hlt => ?_, fun _ => ?_⟩
    · simp [currentFloorPlan, hnone, List.getElem?_eq_getElem hpos]
    · omega
    · simp [currentFloorPlan, hnone]

/-- C7 witness: a concrete two-floor result with the stored index 5 out of
range resolves to a plan of the result, namely the plan at index 0. -/
theorem currentFloorPlan_resolves_witness :
    (∃ plan, currentFloorPlan
        (some ⟨⟨"s", 2, 1⟩, [⟨0, []⟩, ⟨1, []⟩]⟩) 5 = some plan ∧
        plan ∈ ([⟨0, []⟩, ⟨1, []⟩] : List FloorPlan)) ∧
    (5 < ([⟨0, []⟩, ⟨1, []⟩] : List FloorPlan).length →
      currentFloorPlan (some ⟨⟨"s", 2, 1⟩, [⟨0, []⟩, ⟨1, []⟩]⟩) 5 =
        ([⟨0, []⟩, ⟨1, []⟩] : List FloorPlan)[5]?) ∧
    (([⟨0, []⟩, ⟨1, []⟩] : List FloorPlan).length ≤ 5 →
      currentFloorPlan (some ⟨⟨"s", 2, 1⟩, [⟨0, []⟩, ⟨1, []⟩]⟩) 5 =
        ([⟨0, []⟩, ⟨1, []⟩] : List FloorPlan)[0]?) :=
  currentFloorPlan_resolves ⟨⟨"s", 2, 1⟩, [⟨0, []⟩, ⟨1, []⟩]⟩ 5 (by decide)

/-- C10: currentFloorPlan selects by array position: for any in-range
stored index it yields the element at that position of the floorPlans
list, whatever the level fields of the plans are. -/
theorem currentFloorPlan_by_position (r : AnalysisResult) (i : ℕ)
    (h : i < r.floorPlans.length) :
    currentFloorPlan (some r) i = some (r.floorPlans.get ⟨i, h⟩) := by
  simp [currentFloorPlan, List.getElem?_eq_getElem h]

/-- C10 witness: with non-contiguous levels 0 and 2, the stored index 1
yields the second element of the list, the plan whose level is 2. -/
theorem currentFloorPlan_by_position_witness :
    currentFloorPlan (some ⟨⟨"s", 3, 1⟩, [⟨0, []⟩, ⟨2, []⟩]⟩) 1 =
      some ⟨2, []⟩ :=
  currentFloorPlan_by_position ⟨⟨"s", 3, 1⟩, [⟨0, []⟩, ⟨2, []⟩]⟩ 1 (by decide)

/-- C9: undoPoint removes exactly the last point (a 4-point polygon
becomes its first 3 points in order), resetDrawing yields the empty list,
and isDrawingValid holds exactly for lists of at least 3 points, hence is
false after resetDrawing. -/
theorem drawingOps_behavior :
    (∀ (ps : List Point) (p : Point), undoPoint (ps ++ [p]) = ps) ∧
    (∀ a b c d : Point, undoPoint [a, b, c, d] = [a, b, c]) ∧
    resetDrawing = ([] : List Point) ∧
    (∀ ps : List Point, isDrawingValid ps = true ↔ 3 ≤ ps.length) ∧
    isDrawingValid resetDrawing = false := by
  refine ⟨fun ps p => ?_, fun a b c d => rfl, rfl, fun ps => ?_, rfl⟩
  · have hlen : (ps ++ [p]).length - 1 = ps.length := by simp
    rw [undoPoint, hlen, List.take_left]
  · simp [isDrawingValid]

/-- Folding an operation that commutes with scaling by k over a scaled
point list equals k times the fold over the original list. -/
theorem scale_foldl (k : ℚ) (op : ℚ → ℚ → ℚ) (proj : Point → ℚ)
    (hop : ∀ a b : ℚ, op (k * a) (k * b) = k * op a b)
    (hproj : ∀ p : Point, proj ⟨k * p.x, k * p.y⟩ = k * proj p) :
    ∀ (l : List Point) (a : ℚ),
      (scalePoints k l).foldl (fun m q => op m (proj q)) (k * a) =
        k * l.foldl (fun m q => op m (proj q)) a := by
  intro l
  induction l with
  | nil => intro a; simp [scalePoints]
  | cons p l ih =>
      intro a
      simp only [scalePoints, List.map_cons, List.foldl_cons] at *
      rw [hproj, hop]
      exact ih _

/-- Scaling the points scales the maximum x coordinate (k non-negative). -/
theorem maxX_scalePoints (k : ℚ) (hk : 0 ≤ k) (ps : List Point) :
    maxX (scalePoints k ps) = k * maxX ps := by
  cases ps with
  | nil => simp [maxX, scalePoints]
  | cons p l =>
      have h := scale_foldl k max Point.x
        (fun a b => (mul_max_of_nonneg a b hk).symm) (fun _ => rfl) l p.x
      simpa [maxX, scalePoints] using h

/-- Scaling the points scales the minimum x coordinate (k non-negative). -/
theorem minX_scalePoints (k : ℚ) (hk : 0 ≤ k) (ps : List Point) :
    minX (scalePoints k ps) = k * minX ps := by
  cases ps with
  | nil => simp [minX, scalePoints]
  | cons p l =>
      have h := scale_foldl k min Point.x
        (fun a b => (mul_min_of_nonneg a b hk).symm) (fun _ => rfl) l p.x
      simpa [minX, scalePoints] using h

/-- Scaling the points scales the maximum y coordinate (k non-negative). -/
theorem maxY_scalePoints (k : ℚ) (hk : 0 ≤ k) (ps : List Point) :
    maxY (scalePoints k ps) = k * maxY ps := by
  cases ps with
  | nil => simp [maxY, scalePoints]
  | cons p l =>
      have h := scale_foldl k max Point.y
        (fun a b => (mul_max_of_nonneg a b hk).symm) (fun _ => rfl) l p.y
      simpa [maxY, scalePoints] using h

/-- Scaling the points scales the minimum y coordinate (k non-negative). -/
theorem minY_scalePoints (k : ℚ) (hk : 0 ≤ k) (ps : List Point) :
    minY (scalePoints k ps) = k * minY ps := by
  cases ps with
  | nil => simp [minY, scalePoints]
  | cons p l =>
      have h := scale_foldl k min Point.y
        (fun a b => (mul_min_of_nonneg a b hk).symm) (fun _ => rfl) l p.y
      simpa [minY, scalePoints] using h

/-- Scaling the points scales the raw bounding-box width in meters. -/
theorem bboxWidthMeters_scalePoints (k : ℚ) (hk : 0 ≤ k) (ps : List Point) :
    bboxWidthMeters (scalePoints k ps) = k * bboxWidthMeters ps := by
  simp only [bboxWidthMeters, maxX_scalePoints k hk, minX_scalePoints k hk]
  ring

/-- Scaling the points scales the raw bounding-box depth in meters. -/
theorem bboxDepthMeters_scalePoints (k : ℚ) (hk : 0 ≤ k) (ps : List Point) :
    bboxDepthMeters (scalePoints k ps) = k * bboxDepthMeters ps := by
  simp only [bboxDepthMeters, maxY_scalePoints k hk, minY_scalePoints k hk]
  ring

/-- Concrete 3-point polygon whose bounding box is 2 m by 2 m. -/
def c3Points : List Point := [⟨0, 0⟩, ⟨1 / 25, 0⟩, ⟨0, 1 / 25⟩]

/-- C3 counterexample: for the 3-point polygon c3Points and the positive
factor 2, the derived width is not the original derived width scaled by 2
and floored at 5 (both the doubled polygon and the original floor to the
5 m minimum, 5 rather than 10). -/
theorem finalWidth_scaling_cex :
    ¬ (finalWidth (scalePoints 2 c3Points) = max 5 (2 * finalWidth c3Points) ∧
       finalDepth (scalePoints 2 c3Points) = max 5 (2 * finalDepth c3Points)) := by
  rintro ⟨hw, -⟩
  norm_num [finalWidth, toFixed1, bboxWidthMeters, maxX, minX, c3Points,
    scalePoints, MAX_GRID_SIZE_METERS, max_def, List.foldl] at hw

/-- C3 amended: scaling all points of a polygon by a positive factor k
scales the raw bounding-box meter dimensions by exactly k; the final
dimensions (the raw dimensions rounded to one decimal and floored at 5 m)
scale by k only when the rounding is exact and both the original and the
scaled raw dimension already clear the 5 m floor. -/
theorem finalWidth_scaling_amended (ps : List Point) (k : ℚ)
    (h3 : 3 ≤ ps.length) (hk : 0 < k) :
    bboxWidthMeters (scalePoints k ps) = k * bboxWidthMeters ps ∧
    bboxDepthMeters (scalePoints k ps) = k * bboxDepthMeters ps ∧
    (toFixed1 (bboxWidthMeters ps) = bboxWidthMeters ps →
      toFixed1 (k * bboxWidthMeters ps) = k * bboxWidthMeters ps →
      5 ≤ bboxWidthMeters ps → 5 ≤ k * bboxWidthMeters ps →
      finalWidth (scalePoints k ps) = k * finalWidth ps) ∧
    (toFixed1 (bboxDepthMeters ps) = bboxDepthMeters ps →
      toFixed1 (k * bboxDepthMeters ps) = k * bboxDepthMeters ps →
      5 ≤ bboxDepthMeters ps → 5 ≤ k * bboxDepthMeters ps →
      finalDepth (scalePoints k ps) = k * finalDepth ps) := by
  have hk0 : 0 ≤ k := le_of_lt hk
  refine ⟨bboxWidthMeters_scalePoints k hk0 ps,
          bboxDepthMeters_scalePoints k hk0 ps, ?_, ?_⟩
  · intro hex hkex h5 hk5
    rw [finalWidth, bboxWidthMeters_scalePoints k hk0 ps, hkex,
        max_eq_right hk5, finalWidth, hex, max_eq_right h5]
  · intro hex hkex h5 hk5
    rw [finalDepth, bboxDepthMeters_scalePoints k hk0 ps, hkex,
        max_eq_right hk5, finalDepth, hex, max_eq_right h5]

/-- C3 amended, witness: a concrete 3-point polygon with a 10 m by 10 m
bounding box scaled by 2, where both raw dimensions clear the floor and
round exactly. -/
theorem finalWidth_scaling_amended_witness :
    bboxWidthMeters (scalePoints 2 [⟨0, 0⟩, ⟨1 / 5, 0⟩, ⟨0, 1 / 5⟩]) =
        2 * bboxWidthMeters [⟨0, 0⟩, ⟨1 / 5, 0⟩, ⟨0, 1 / 5⟩] ∧
    bboxDepthMeters (scalePoints 2 [⟨0, 0⟩, ⟨1 / 5, 0⟩, ⟨0, 1 / 5⟩]) =
        2 * bboxDepthMeters [⟨0, 0⟩, ⟨1 / 5, 0⟩, ⟨0, 1 / 5⟩] ∧
    (toFixed1 (bboxWidthMeters [⟨0, 0⟩, ⟨1 / 5, 0⟩, ⟨0, 1 / 5⟩]) =
        bboxWidthMeters [⟨0, 0⟩, ⟨1 / 5, 0⟩, ⟨0, 1 / 5⟩] →
      toFixed1 (2 * bboxWidthMeters [⟨0, 0⟩, ⟨1 / 5, 0⟩, ⟨0, 1 / 5⟩]) =
        2 * bboxWidthMeters [⟨0, 0⟩, ⟨1 / 5, 0⟩, ⟨0, 1 / 5⟩] →
      5 ≤ bboxWidthMeters [⟨0, 0⟩, ⟨1 / 5, 0⟩, ⟨0, 1 / 5⟩] →
      5 ≤ 2 * bboxWidthMeters [⟨0, 0⟩, ⟨1 / 5, 0⟩, ⟨0, 1 / 5⟩] →
      finalWidth (scalePoints 2 [⟨0, 0⟩, ⟨1 / 5, 0⟩, ⟨0, 1 / 5⟩]) =
        2 * finalWidth [⟨0, 0⟩, ⟨1 / 5, 0⟩, ⟨0, 1 / 5⟩]) ∧
    (toFixed1 (bboxDepthMeters [⟨0, 0⟩, ⟨1 / 5, 0⟩, ⟨0, 1 / 5⟩]) =
        bboxDepthMeters [⟨0, 0⟩, ⟨1 / 5, 0⟩, ⟨0, 1 / 5⟩] →
      toFixed1 (2 * bboxDepthMeters [⟨0, 0⟩, ⟨1 / 5, 0⟩, ⟨0, 1 / 5⟩]) =
        2 * bboxDepthMeters [⟨0, 0⟩, ⟨1 / 5, 0⟩, ⟨0, 1 / 5⟩] →
      5 ≤ bboxDepthMeters [⟨0, 0⟩, ⟨1 / 5, 0⟩, ⟨0, 1 / 5⟩] →
      5 ≤ 2 * bboxDepthMeters [⟨0, 0⟩, ⟨1 / 5, 0⟩, ⟨0, 1 / 5⟩] →
      finalDepth (scalePoints 2 [⟨0, 0⟩, ⟨1 / 5, 0⟩, ⟨0, 1 / 5⟩]) =
        2 * finalDepth [⟨0, 0⟩, ⟨1 / 5, 0⟩, ⟨0, 1 / 5⟩]) :=
  finalWidth_scaling_amended [⟨0, 0⟩, ⟨1 / 5, 0⟩, ⟨0, 1 / 5⟩] 2
    (by decide) (by decide)

/-- Concrete application state with valid numeric input, differing
neighbor signals (east 3, west 2) and a prior analysis result. -/
def sampleNumericState : AppState :=
  { step := Step.input, inputType := InputType.numeric,
    viewMode := ViewMode.twoD, landWidth := 10, landDepth := 20,
    neighborEastFloors := 3, neighborWestFloors := 2,
    polygonPoints := [],
    analysisResult := some ⟨⟨"s", 2, 1⟩, [⟨0, []⟩]⟩,
    errorMessage := none, selectedFloor := 0 }

/-- Concrete application state whose numeric width is invalid (zero). -/
def invalidNumericState : AppState :=
  { sampleNumericState with landWidth := 0 }

/-- C5: when the input passes validation and the service call fails, the
completed analyzePlot run leaves the step at input, the error message at
the service error (non-null) and the analysis result at null, discarding
any prior result. -/
theorem analyzePlot_failure_state (s : AppState) (reply : ModelReply)
    (w d : ℚ) (e : String)
    (hdims : computeDimensions s = Except.ok (w, d))
    (hfail : (analyzeLand w d s.neighborEastFloors s.neighborWestFloors reply).2 =
      Except.error e) :
    (analyzePlot reply s).state.step = Step.input ∧
    (analyzePlot reply s).state.errorMessage = some serviceErrorMessage ∧
    (analyzePlot reply s).state.analysisResult = none := by
  refine ⟨?_, ?_, ?_⟩ <;> simp [analyzePlot, hdims, hfail]

/-- C5 witness: a concrete valid numeric state with a prior result and a
rejecting network call ends at step input with the service error set and
no analysis result. -/
theorem analyzePlot_failure_state_witness :
    (analyzePlot ModelReply.networkError sampleNumericState).state.step = Step.input ∧
    (analyzePlot ModelReply.networkError sampleNumericState).state.errorMessage =
      some serviceErrorMessage ∧
    (analyzePlot ModelReply.networkError sampleNumericState).state.analysisResult =
      none :=
  analyzePlot_failure_state sampleNumericState ModelReply.networkError 10 20
    genericFailureMessage rfl rfl

/-- C6: whenever analyzePlot sends a request, the West Neighbor line of
the prompt carries the value of the neighborEastFloors signal and the
East Neighbor line the value of the neighborWestFloors signal: the call
site binds the east signal to the neighborWestFloors parameter and the
west signal to the neighborEastFloors parameter. -/
theorem analyzePlot_swapped_neighbor_binding (s : AppState) (reply : ModelReply)
    (p : SentPrompt)
    (hsent : (analyzePlot reply s).requestSent = some p) :
    p.westNeighborLine = "- West Neighbor: " ++ toString s.neighborEastFloors ++
      " floors. This affects lighting and privacy on the west side." ∧
    p.eastNeighborLine = "- East Neighbor: " ++ toString s.neighborWestFloors ++
      " floors. This affects lighting and privacy on the east side." := by
  unfold analyzePlot at hsent
  rcases hdims : computeDimensions s with msg | wd
  · rw [hdims] at hsent
    simp at hsent
  · obtain ⟨w, d⟩ := wd
    rw [hdims] at hsent
    rcases hres : (analyzeLand w d s.neighborEastFloors s.neighborWestFloors reply).2
        with e | v <;>
      · simp only [hres] at hsent
        simp at hsent
        subst hsent
        exact ⟨rfl, rfl⟩

/-- C6 witness: with the east signal at 3 and the west signal at 2, the
prompt sent carries 3 on its West Neighbor line and 2 on its East
Neighbor line. -/
theorem analyzePlot_swapped_neighbor_binding_witness :
    (analyzeLandPrompt 10 20 3 2).westNeighborLine =
      "- West Neighbor: " ++ toString (3 : ℤ) ++
        " floors. This affects lighting and privacy on the west side." ∧
    (analyzeLandPrompt 10 20 3 2).eastNeighborLine =
      "- East Neighbor: " ++ toString (2 : ℤ) ++
        " floors. This affects lighting and privacy on the east side." :=
  analyzePlot_swapped_neighbor_binding sampleNumericState ModelReply.networkError
    (analyzeLandPrompt 10 20 3 2) rfl

/-- C8: on invalid input (numeric with a non-positive dimension, or draw
with fewer than 3 polygon points) analyzePlot sets a non-null inline
error message and returns before any request is sent, and the step stays
at input. -/
theorem analyzePlot_invalid_input (s : AppState) (reply : ModelReply)
    (hstep : s.step = Step.input)
    (hbad : (s.inputType = InputType.numeric ∧ (s.landWidth ≤ 0 ∨ s.landDepth ≤ 0)) ∨
            (s.inputType = InputType.draw ∧ s.polygonPoints.length < 3)) :
    (analyzePlot reply s).requestSent = none ∧
    (analyzePlot reply s).state.errorMessage ≠ none ∧
    (analyzePlot reply s).state.step = Step.input := by
  have herr : ∃ msg, computeDimensions s = Except.error msg := by
    rcases hbad with ⟨htype, hdims⟩ | ⟨htype, hlen⟩
    · refine ⟨dimensionErrorMessage, ?_⟩
      simp only [computeDimensions, htype]
      rw [if_pos hdims]
    · refine ⟨drawingErrorMessage, ?_⟩
      have hfalse : ¬ (isDrawingValid s.polygonPoints = true) := by
        simp only [isDrawingValid, decide_eq_true_eq]
        omega
      simp only [computeDimensions, htype]
      rw [if_neg hfalse]
  obtain ⟨msg, hmsg⟩ := herr
  refine ⟨?_, ?_, ?_⟩ <;> simp [analyzePlot, hmsg, hstep]

/-- C8 witness: a concrete numeric state with width 0 gets an inline
error, sends no request and stays at step input. -/
theorem analyzePlot_invalid_input_witness :
    (analyzePlot ModelReply.networkError invalidNumericState).requestSent = none ∧
    (analyzePlot ModelReply.networkError invalidNumericState).state.errorMessage ≠
      none ∧
    (analyzePlot ModelReply.networkError invalidNumericState).state.step =
      Step.input :=
  analyzePlot_invalid_input invalidNumericState ModelReply.networkError rfl
    (Or.inl ⟨rfl, Or.inl (by norm_num [invalidNumericState, sampleNumericState])⟩)

/-- Any non-empty floor plan list gives typicalPlan a value. -/
theorem typicalPlan_exists (fps : List FloorPlan) (h : fps ≠ []) :
    ∃ tp, typicalPlan fps = some tp := by
  have h0 : 0 < fps.length := List.length_pos.mpr h
  unfold typicalPlan
  split
  · rcases hfind : fps.find? (fun p => decide (0 < p.level)) with _ | p
    · exact ⟨fps[0], by rw [hfind]; exact List.getElem?_eq_getElem h0⟩
    · exact ⟨p, by rw [hfind]⟩
  · exact ⟨fps[0], List.getElem?_eq_getElem h0⟩

/-- Any non-empty floor plan list gives groundPlan a value. -/
theorem groundPlan_exists (fps : List FloorPlan) (h : fps ≠ []) :
    ∃ gp, groundPlan fps = some gp := by
  have h0 : 0 < fps.length := List.length_pos.mpr h
  rcases hfind : fps.find? (fun p => decide (p.level = 0)) with _ | p
  · exact ⟨fps[0], by unfold groundPlan; rw [hfind]; exact List.getElem?_eq_getElem h0⟩
  · exact ⟨p, by unfold groundPlan; rw [hfind]⟩

/-- With the plans found, createBuildingScene is the floor loop, the roof
slab and the neighbor boxes. -/
theorem createBuildingScene_eq_of_found (landW landD : ℚ) (nw ne : ℤ)
    (result : AnalysisResult) (tp gp : FloorPlan)
    (htp : typicalPlan result.floorPlans = some tp)
    (hgp : groundPlan result.floorPlans = some gp) :
    createBuildingScene landW landD nw ne result =
      some (((List.range result.buildingSummary.totalFloors).flatMap (fun i =>
          BuildingOp.floorOp ((i : ℚ) * FLOOR_HEIGHT) (if i = 0 then gp else tp)
              (renderFloor (if i = 0 then gp else tp) ((i : ℚ) * FLOOR_HEIGHT)
                landW landD true)
            :: (if 0 < i then
                  [BuildingOp.slabOp ((i : ℚ) * FLOOR_HEIGHT)
                    (renderSlab ((i : ℚ) * FLOOR_HEIGHT) landW landD
                      (if i = 0 then gp else tp))]
                else [])))
        ++ [BuildingOp.slabOp ((result.buildingSummary.totalFloors : ℚ) * FLOOR_HEIGHT)
              (renderSlab ((result.buildingSummary.totalFloors : ℚ) * FLOOR_HEIGHT)
                landW landD tp)]
        ++ (renderNeighbors landW landD nw ne).map BuildingOp.neighborOp) := by
  unfold createBuildingScene
  rw [htp, hgp]

/-- Splitting the floor loop of createBuildingScene at level 0: the ground
plan at elevation 0 followed by a floor-and-slab pair of the typical plan
at each higher level. -/
theorem buildingLoop_split (landW landD : ℚ) (gp tp : FloorPlan) (m : ℕ) :
    (List.range (m + 1)).flatMap (fun i =>
        BuildingOp.floorOp ((i : ℚ) * FLOOR_HEIGHT) (if i = 0 then gp else tp)
            (renderFloor (if i = 0 then gp else tp) ((i : ℚ) * FLOOR_HEIGHT)
              landW landD true)
          :: (if 0 < i then
                [BuildingOp.slabOp ((i : ℚ) * FLOOR_HEIGHT)
                  (renderSlab ((i : ℚ) * FLOOR_HEIGHT) landW landD
                    (if i = 0 then gp else tp))]
              else [])) =
      BuildingOp.floorOp 0 gp (renderFloor gp 0 landW landD true)
        :: (List.range m).flatMap (fun j =>
            [BuildingOp.floorOp (((j : ℚ) + 1) * FLOOR_HEIGHT) tp
               (renderFloor tp (((j : ℚ) + 1) * FLOOR_HEIGHT) landW landD true),
             BuildingOp.slabOp (((j : ℚ) + 1) * FLOOR_HEIGHT)
               (renderSlab (((j : ℚ) + 1) * FLOOR_HEIGHT) landW landD tp)]) := by
  induction m with
  | zero => simp [List.range_succ, List.flatMap_append, List.flatMap_cons]
  | succ m ih =>
      rw [List.range_succ, List.flatMap_append, ih, List.range_succ,
        List.flatMap_append]
      simp [List.cons_append, List.append_assoc]

/-- In a list of floor-and-slab pairs, the floor ops are one per pair. -/
theorem loop_filter_floor_length (landW landD : ℚ) (tp : FloorPlan)
    (l : List ℕ) :
    ((l.flatMap (fun j =>
        [BuildingOp.floorOp (((j : ℚ) + 1) * FLOOR_HEIGHT) tp
           (renderFloor tp (((j : ℚ) + 1) * FLOOR_HEIGHT) landW landD true),
         BuildingOp.slabOp (((j : ℚ) + 1) * FLOOR_HEIGHT)
           (renderSlab (((j : ℚ) + 1) * FLOOR_HEIGHT) landW landD tp)])).filter
      BuildingOp.isFloorOp).length = l.length := by
  induction l with
  | nil => rfl
  | cons j l ih =>
      simp [List.flatMap_cons, List.filter_append, BuildingOp.isFloorOp, ih]

/-- In a list of floor-and-slab pairs, the slab ops are one per pair. -/
theorem loop_filter_slab_length (landW landD : ℚ) (tp : FloorPlan)
    (l : List ℕ) :
    ((l.flatMap (fun j =>
        [BuildingOp.floorOp (((j : ℚ) + 1) * FLOOR_HEIGHT) tp
           (renderFloor tp (((j : ℚ) + 1) * FLOOR_HEIGHT) landW landD true),
         BuildingOp.slabOp (((j : ℚ) + 1) * FLOOR_HEIGHT)
           (renderSlab (((j : ℚ) + 1) * FLOOR_HEIGHT) landW landD tp)])).filter
      BuildingOp.isSlabOp).length = l.length := by
  induction l with
  | nil => rfl
  | cons j l ih =>
      simp [List.flatMap_cons, List.filter_append, BuildingOp.isSlabOp, ih]

/-- Neighbor massing ops contain no floor op and no slab op. -/
theorem neighborOps_filter_eq_nil (p : BuildingOp → Bool)
    (hp : ∀ b : NeighborBox, p (BuildingOp.neighborOp b) = false)
    (l : List NeighborBox) :
    (l.map BuildingOp.neighborOp).filter p = [] := by
  induction l with
  | nil => rfl
  | cons b l ih => simp [hp, ih]

/-- The slab pieces of a plan are exactly one piece per non-void room. -/
theorem renderSlab_covers_nonvoid (e landW landD : ℚ) (plan : FloorPlan) :
    renderSlab e landW landD plan =
      (plan.rooms.filter (fun r => decide (r.type ≠ RoomType.void))).map
        (slabPieceOfRoom e landW landD) := by
  unfold renderSlab
  induction plan.rooms with
  | nil => rfl
  | cons r rest ih =>
      by_cases hr : r.type = RoomType.void <;>
        simp [List.filterMap_cons, List.filter_cons, hr, ih]

/-- C4: in building view, a result with a non-empty floor plan list and
totalFloors = N (N at least 1) renders exactly N stacked floor levels (the
ground plan at elevation 0 and the typical plan at each level above),
inserts a slab between consecutive floors whose pieces are exactly the
non-void rooms of the rendered plan, and adds exactly one roof slab at
the top (N slab ops in total: N - 1 between floors plus one roof). -/
theorem createBuildingScene_stacks (result : AnalysisResult)
    (landW landD : ℚ) (nw ne : ℤ)
    (hne : result.floorPlans ≠ [])
    (hN : 1 ≤ result.buildingSummary.totalFloors) :
    ∃ gp tp ops,
      groundPlan result.floorPlans = some gp ∧
      typicalPlan result.floorPlans = some tp ∧
      createBuildingScene landW landD nw ne result = some ops ∧
      ops =
        BuildingOp.floorOp 0 gp (renderFloor gp 0 landW landD true)
          :: ((List.range (result.buildingSummary.totalFloors - 1)).flatMap (fun j =>
              [BuildingOp.floorOp (((j : ℚ) + 1) * FLOOR_HEIGHT) tp
                 (renderFloor tp (((j : ℚ) + 1) * FLOOR_HEIGHT) landW landD true),
               BuildingOp.slabOp (((j : ℚ) + 1) * FLOOR_HEIGHT)
                 (renderSlab (((j : ℚ) + 1) * FLOOR_HEIGHT) landW landD tp)])
            ++ [BuildingOp.slabOp
                  ((result.buildingSummary.totalFloors : ℚ) * FLOOR_HEIGHT)
                  (renderSlab ((result.buildingSummary.totalFloors : ℚ) * FLOOR_HEIGHT)
                    landW landD tp)]
            ++ (renderNeighbors landW landD nw ne).map BuildingOp.neighborOp) ∧
      (ops.filter BuildingOp.isFloorOp).length =
        result.buildingSummary.totalFloors ∧
      (ops.filter BuildingOp.isSlabOp).length =
        result.buildingSummary.totalFloors ∧
      (∀ (e : ℚ) (plan : FloorPlan),
        renderSlab e landW landD plan =
          (plan.rooms.filter (fun r => decide (r.type ≠ RoomType.void))).map
            (slabPieceOfRoom e landW landD)) := by
  obtain ⟨tp, htp⟩ := typicalPlan_exists result.floorPlans hne
  obtain ⟨gp, hgp⟩ := groundPlan_exists result.floorPlans hne
  obtain ⟨m, hm⟩ : ∃ m, result.buildingSummary.totalFloors = m + 1 :=
    ⟨result.buildingSummary.totalFloors - 1, by omega⟩
  have hsplit := buildingLoop_split landW landD gp tp m
  refine ⟨gp, tp, _, hgp, htp,
    createBuildingScene_eq_of_found landW landD nw ne result tp gp htp hgp,
    ?_, ?_, ?_, fun e plan => renderSlab_covers_nonvoid e landW landD plan⟩
  · rw [hm]
    rw [hsplit]
    simp [List.cons_append, List.append_assoc]
  · rw [hm, hsplit]
    simp [List.cons_append, List.filter_cons, List.filter_append,
      BuildingOp.isFloorOp, BuildingOp.isSlabOp,
      loop_filter_floor_length, loop_filter_slab_length,
      neighborOps_filter_eq_nil BuildingOp.isFloorOp (fun _ => rfl),
      neighborOps_filter_eq_nil BuildingOp.isSlabOp (fun _ => rfl)]
  · rw [hm, hsplit]
    simp [List.cons_append, List.filter_cons, List.filter_append,
      BuildingOp.isFloorOp, BuildingOp.isSlabOp,
      loop_filter_floor_length, loop_filter_slab_length,
      neighborOps_filter_eq_nil BuildingOp.isFloorOp (fun _ => rfl),
      neighborOps_filter_eq_nil BuildingOp.isSlabOp (fun _ => rfl)]

/-- Concrete 3-floor result with 2 rooms per floor (a ground plan at
level 0 and a typical plan at level 1). -/
def c4Result : AnalysisResult :=
  ⟨⟨"s", 3, 2⟩,
   [⟨0, [⟨"p", RoomType.hallway, 100, ⟨0, 0, 100, 50⟩⟩,
         ⟨"st", RoomType.staircase, 100, ⟨0, 50, 100, 50⟩⟩]⟩,
    ⟨1, [⟨"l", RoomType.living, 100, ⟨0, 0, 100, 50⟩⟩,
         ⟨"b", RoomType.bedroom, 100, ⟨0, 50, 100, 50⟩⟩]⟩]⟩

/-- C4 witness: with width 10, depth 20, both neighbors at 2 floors and
the concrete 3-floor 2-rooms-per-floor result, the building scene is
exactly 3 stacked floor levels plus slabs, with one roof slab on top. -/
theorem createBuildingScene_stacks_witness :
    ∃ gp tp ops,
      groundPlan c4Result.floorPlans = some gp ∧
      typicalPlan c4Result.floorPlans = some tp ∧
      createBuildingScene 10 20 2 2 c4Result = some ops ∧
      ops =
        BuildingOp.floorOp 0 gp (renderFloor gp 0 10 20 true)
          :: ((List.range (c4Result.buildingSummary.totalFloors - 1)).flatMap (fun j =>
              [BuildingOp.floorOp (((j : ℚ) + 1) * FLOOR_HEIGHT) tp
                 (renderFloor tp (((j : ℚ) + 1) * FLOOR_HEIGHT) 10 20 true),
               BuildingOp.slabOp (((j : ℚ) + 1) * FLOOR_HEIGHT)
                 (renderSlab (((j : ℚ) + 1) * FLOOR_HEIGHT) 10 20 tp)])
            ++ [BuildingOp.slabOp
                  ((c4Result.buildingSummary.totalFloors : ℚ) * FLOOR_HEIGHT)
                  (renderSlab ((c4Result.buildingSummary.totalFloors : ℚ) * FLOOR_HEIGHT)
                    10 20 tp)]
            ++ (renderNeighbors 10 20 2 2).map BuildingOp.neighborOp) ∧
      (ops.filter BuildingOp.isFloorOp).length =
        c4Result.buildingSummary.totalFloors ∧
      (ops.filter BuildingOp.isSlabOp).length =
        c4Result.buildingSummary.totalFloors ∧
      (∀ (e : ℚ) (plan : FloorPlan),
        renderSlab e 10 20 plan =
          (plan.rooms.filter (fun r => decide (r.type ≠ RoomType.void))).map
            (slabPieceOfRoom e 10 20)) :=
  createBuildingScene_stacks c4Result 10 20 2 2 (by decide) (by decide)

end Nexarch
